import Mathlib

/-!
Shallow embedding of the authentication/session subsystem of the
expenses-splitter application (src/pages/auth.rs, src/state.rs, src/main.rs).

The server functions `get_user`, `logout`, `login` and `register` are embedded
as pure state-transformers over a `ReqState` holding the durable user table,
the current session's identity (as managed by the axum-session-auth layer) and
the pending redirect.  The bcrypt primitive's raw digest computation is kept
abstract as a parameter `bc : String → String → Nat → String`
(password → salt → cost → digest); the hash-string format handling
(`split_hash` inside the bcrypt crate's `verify`) is modelled concretely, since
the distinction between well-formed and malformed stored hashes is observable
in the control flow of `login`.
-/

namespace ExpensesSplitter

/-- The user record, as selected from the `user` table
(models/user.rs: id, username, password where `password` stores the bcrypt
hash string). -/
structure User where
  id : Nat
  username : String
  password : String
deriving Repr, DecidableEq

/-- The durable `user` table plus the next id the database will assign
(SQLite rowid-style: ids are assigned at creation and never reused). -/
structure Db where
  users : List User
  nextId : Nat
deriving Repr, DecidableEq

/-- Session state managed by axum-session-auth: an optional authenticated
user id; `none` is an anonymous session. -/
structure Session where
  userId : Option Nat
deriving Repr, DecidableEq

/-- Per-request state visible to the server functions: the database pool's
backing store, the current session, and the redirect set by
`leptos_axum::redirect`. -/
structure ReqState where
  db : Db
  session : Session
  redirect : Option String
deriving Repr, DecidableEq

/-- Errors of the bcrypt crate's hash-string parsing, as they can surface
from `verify`.  `invalidHash` carries the offending hash string. -/
inductive BcryptError where
  | invalidHash (h : String)
  | invalidPrefix (p : String)
  | invalidCost (c : String)
deriving Repr, DecidableEq

/-- Database-level errors surfaced by sqlx `execute`. -/
inductive DbError where
  | uniqueViolation
deriving Repr, DecidableEq

/-- `ServerFnError` as observed at the boundary of the four server functions:
`serverError` is an explicit `ServerFnError::ServerError(msg)` constructed in
auth.rs; `fromBcrypt` and `fromDb` are errors propagated by the `?` operator
from the bcrypt crate and from sqlx respectively. -/
inductive SFError where
  | serverError (msg : String)
  | fromBcrypt (e : BcryptError)
  | fromDb (e : DbError)
deriving Repr, DecidableEq

namespace Bcrypt

/-- The parts of a well-formed bcrypt hash string. -/
structure HashParts where
  cost : Nat
  salt : String
  digest : String
deriving Repr, DecidableEq

/-- Rust `str::split(t)` on a character list: the segments between
occurrences of `t`, in order, empty segments included. -/
def splitChar (t : Char) : List Char → List (List Char)
  | [] => [[]]
  | c :: cs =>
    match splitChar t cs with
    | [] => [[]]
    | s :: ss => if c = t then [] :: s :: ss else (c :: s) :: ss

/-- Rust `str::parse::<u32>()` restricted to plain digit strings: the empty
string and any non-digit character fail. -/
def parseCostAux : List Char → Nat → Option Nat
  | [], acc => some acc
  | c :: cs, acc =>
    if c.isDigit then parseCostAux cs (10 * acc + (c.toNat - 48)) else none

/-- Entry point of the cost parse: an empty digit string is a parse error. -/
def parseCost : List Char → Option Nat
  | [] => none
  | c :: cs => parseCostAux (c :: cs) 0

/-- The bcrypt crate's `split_hash`: a hash string `$2b$12$<22-char salt><31-char
digest>` splits on the dollar sign into a version tag, a cost, and a 53-char
salt-plus-digest block; anything else is a parse error. -/
def splitHash (h : String) : Except BcryptError HashParts :=
  match ((splitChar '$' h.data).map String.mk).filter (fun s => !(s == "")) with
  | [ver, costStr, rest] =>
    if ver == "2y" || ver == "2b" || ver == "2a" || ver == "2x" then
      match parseCost costStr.data with
      | some cost =>
        if rest.length == 53 then
          .ok ⟨cost, ⟨rest.data.take 22⟩, ⟨rest.data.drop 22⟩⟩
        else .error (.invalidHash h)
      | none => .error (.invalidCost costStr)
    else .error (.invalidPrefix ver)
  | _ => .error (.invalidHash h)

/-- bcrypt `verify(password, hash)`: parse the stored hash, recompute the raw
digest with the stored salt and cost, and compare.  A malformed stored hash is
an `Err`, not a `false`. -/
def verify (bc : String → String → Nat → String) (password hashed : String) :
    Except BcryptError Bool :=
  match splitHash hashed with
  | .error e => .error e
  | .ok parts => .ok (bc password parts.salt parts.cost == parts.digest)

/-- bcrypt `DEFAULT_COST`. -/
def DEFAULT_COST : Nat := 12

/-- bcrypt `hash(password, cost)`: draws a random `salt` (here an explicit
input) and formats version, cost, salt and raw digest into one string.  With a
valid cost such as `DEFAULT_COST` this cannot fail, so the `.unwrap()` in
`register` is total. -/
def hash (bc : String → String → Nat → String) (salt password : String)
    (cost : Nat) : String :=
  "$2b$" ++ toString cost ++ "$" ++ salt ++ bc password salt cost

end Bcrypt

/-- `User::get_user_from_username`: `SELECT * FROM user WHERE username = ?`,
returning the first matching row if any. -/
def getUserFromUsername (username : String) (db : Db) : Option User :=
  db.users.find? (fun u => u.username == username)

/-- Modelled from the spec: the `INSERT INTO user (username, password)` issued
by `register`, together with the `username` uniqueness constraint of the
`user` table.  The SQL migrations defining that table are not among the
provided sources; per the spec, `create_user` is atomic and a duplicate
username aborts the insert with a uniqueness error, leaving no partial
record. -/
def insertUser (username hashed : String) (db : Db) : Except DbError Db :=
  if db.users.any (fun u => u.username == username) then
    .error .uniqueViolation
  else
    .ok ⟨db.users ++ [⟨db.nextId, username, hashed⟩], db.nextId + 1⟩

/-- Well-formedness of the database: every assigned id is below `nextId`
(ids are unique and never reused). -/
def Db.wf (db : Db) : Prop :=
  ∀ u ∈ db.users, u.id < db.nextId

instance (db : Db) : Decidable db.wf :=
  inferInstanceAs (Decidable (∀ u ∈ db.users, u.id < db.nextId))

/-- axum-session-auth `current_user`: the identity the session layer resolves
for a request on this session, by loading the session's user id against the
user table; anonymous or dangling sessions resolve to `none`. -/
def currentUser (st : ReqState) : Option User :=
  match st.session.userId with
  | none => none
  | some id => st.db.users.find? (fun u => u.id == id)

/-- axum-session-auth `auth.login_user(id)`: store `id` in the session. -/
def login_user (id : Nat) (st : ReqState) : ReqState :=
  { st with session := ⟨some id⟩ }

/-- axum-session-auth `auth.logout_user()`: clear the session's identity. -/
def logout_user (st : ReqState) : ReqState :=
  { st with session := ⟨none⟩ }

/-- `leptos_axum::redirect(path)`: record the redirect on the response. -/
def set_redirect (path : String) (st : ReqState) : ReqState :=
  { st with redirect := some path }

/-- Server function `get_user` (`GetUser`): return the session layer's
resolved `current_user`. -/
def get_user (st : ReqState) : Except SFError (Option User) × ReqState :=
  (.ok (currentUser st), st)

/-- Server function `logout` (`Logout`): unconditionally clear the session's
identity, redirect to "/", and return `Ok(())`. -/
def logout (st : ReqState) : Except SFError Unit × ReqState :=
  (.ok (), set_redirect "/" (logout_user st))

/-- Server function `login` (`Login`): look the username up (absence is the
"User does not exist" error), verify the password against the stored hash
(`?` propagates a bcrypt error), and on success log the user in and redirect;
a failed verification is the "Password is incorrect" error. -/
def login (bc : String → String → Nat → String) (username password : String)
    (st : ReqState) : Except SFError Unit × ReqState :=
  match getUserFromUsername username st.db with
  | none => (.error (.serverError "User does not exist"), st)
  | some user =>
    match Bcrypt.verify bc password user.password with
    | .error e => (.error (.fromBcrypt e), st)
    | .ok true => (.ok (), set_redirect "/" (login_user user.id st))
    | .ok false => (.error (.serverError "Password is incorrect"), st)

/-- Server function `register` (`Register`): reject mismatching passwords,
hash the password with `DEFAULT_COST` (salt drawn by the hasher, threaded here
as `salt`), insert the new row (`?` propagates a database error), re-select
the user by username, log them in and redirect. -/
def register (bc : String → String → Nat → String) (salt : String)
    (username password confirm_password : String) (st : ReqState) :
    Except SFError Unit × ReqState :=
  if password ≠ confirm_password then
    (.error (.serverError "Passwords do not match"), st)
  else
    let hashed_password := Bcrypt.hash bc salt password Bcrypt.DEFAULT_COST
    match insertUser username hashed_password st.db with
    | .error e => (.error (.fromDb e), st)
    | .ok db1 =>
      match getUserFromUsername username db1 with
      | none => (.error (.serverError "User not found"), { st with db := db1 })
      | some user =>
        (.ok (), set_redirect "/" (login_user user.id { st with db := db1 }))

/-- `RegisterPage` client-side constant. -/
def USERNAME_MIN_LENGTH : Nat := 5

/-- `RegisterPage` client-side constant. -/
def PASSWORD_MIN_LENGTH : Nat := 8

/-- `RegisterPage`'s `username_error` closure: empty or shorter than
`USERNAME_MIN_LENGTH` bytes is rejected client-side (Rust `str::len` counts
bytes, hence `utf8ByteSize`). -/
def username_error (username : String) : Option String :=
  if username = "" then
    some "Username cannot be empty"
  else if username.utf8ByteSize < USERNAME_MIN_LENGTH then
    some ("Username must be at least " ++ toString USERNAME_MIN_LENGTH
      ++ " characters long")
  else
    none

/-- `RegisterPage`'s `password_error` closure: empty or shorter than
`PASSWORD_MIN_LENGTH` bytes is rejected client-side. -/
def password_error (password : String) : Option String :=
  if password = "" then
    some "Password cannot be empty"
  else if password.utf8ByteSize < PASSWORD_MIN_LENGTH then
    some ("Password must be at least " ++ toString PASSWORD_MIN_LENGTH
      ++ " characters long")
  else
    none

/-- `RegisterPage`'s `confirm_password_error` closure. -/
def confirm_password_error (confirm_password password : String) :
    Option String :=
  if confirm_password = "" then
    some "Password cannot be empty"
  else if confirm_password ≠ password then
    some "Passwords do not match"
  else
    none

/-- `RegisterPage`'s `is_form_valid` closure: the submit button is enabled
only when all three client-side checks pass. -/
def is_form_valid (username password confirm_password : String) : Bool :=
  (username_error username).isNone && (password_error password).isNone
    && (confirm_password_error confirm_password password).isNone

deriving instance DecidableEq for Except

/-- A concrete raw-digest function instantiating the abstract bcrypt
primitive in concrete evaluations: it always returns one fixed 31-character
digest. -/
def bcFix : String → String → Nat → String :=
  fun _ _ _ => "1234567890123456789012345678901"

/-- Empty user table, anonymous session, no redirect. -/
def stEmpty : ReqState := ⟨⟨[], 1⟩, ⟨none⟩, none⟩

/-- A well-formed stored hash whose digest is exactly what `bcFix` computes,
so any password verifies against it under `bcFix`. -/
def hashGood : String :=
  "$2b$12$ABCDEFGHIJKLMNOPQRSTUV1234567890123456789012345678901"

/-- A well-formed stored hash whose digest `bcFix` never produces, so no
password verifies against it under `bcFix`. -/
def hashWrong : String :=
  "$2b$12$ABCDEFGHIJKLMNOPQRSTUVXXXXXXXXXXXXXXXXXXXXXXXXXXXXXXX"

/-- One user whose stored hash verifies under `bcFix`. -/
def stAlice : ReqState := ⟨⟨[⟨1, "alice", hashGood⟩], 2⟩, ⟨none⟩, none⟩

/-- One user whose stored hash is malformed. -/
def stBob : ReqState := ⟨⟨[⟨1, "bob", "notahash"⟩], 2⟩, ⟨none⟩, none⟩

/-- One user whose stored hash is well-formed but never verifies under
`bcFix`. -/
def stCarol : ReqState := ⟨⟨[⟨1, "carol", hashWrong⟩], 2⟩, ⟨none⟩, none⟩

/-- The empty string occupies zero bytes. -/
theorem empty_utf8ByteSize : ("" : String).utf8ByteSize = 0 := rfl

/-- A string of nonzero byte size is nonempty. -/
theorem ne_empty_of_utf8ByteSize {s : String} {n : Nat} (hn : n ≠ 0)
    (h : s.utf8ByteSize = n) : s ≠ "" := by
  intro he
  subst he
  exact hn (empty_utf8ByteSize ▸ h.symm)

/-- `register` with mismatching passwords: the explicit mismatch error, state
untouched. -/
theorem registerMismatchEq (bc : String → String → Nat → String)
    (salt u p c : String) (st : ReqState) (h : p ≠ c) :
    register bc salt u p c st =
      (.error (.serverError "Passwords do not match"), st) := by
  simp [register, h]

/-- `register` with an existing username: the uniqueness violation propagates
and the state is untouched. -/
theorem registerDupEq (bc : String → String → Nat → String)
    (salt u p : String) (st : ReqState)
    (h : st.db.users.any (fun x => x.username == u) = true) :
    register bc salt u p p st = (.error (.fromDb .uniqueViolation), st) := by
  simp [register, insertUser, h]

/-- `register` with matching passwords and a fresh username: the new row is
appended with id `nextId`, the session is logged in as that id, and the
caller is redirected to "/". -/
theorem registerFreshEq (bc : String → String → Nat → String)
    (salt u p : String) (st : ReqState)
    (h : ∀ x ∈ st.db.users, x.username ≠ u) :
    register bc salt u p p st =
      (.ok (), ⟨⟨st.db.users
          ++ [⟨st.db.nextId, u, Bcrypt.hash bc salt p Bcrypt.DEFAULT_COST⟩],
        st.db.nextId + 1⟩, ⟨some st.db.nextId⟩, some "/"⟩) := by
  have hany : st.db.users.any (fun x => x.username == u) = false := by
    rw [List.any_eq_false]
    intro x hx
    simpa using h x hx
  have hnone : st.db.users.find? (fun x => x.username == u) = none := by
    rw [List.find?_eq_none]
    intro x hx
    simpa using h x hx
  simp [register, insertUser, hany, getUserFromUsername, List.find?_append,
    hnone, login_user, set_redirect]

/-- `login` either succeeds or leaves the request state untouched. -/
theorem loginCases (bc : String → String → Nat → String) (u p : String)
    (st : ReqState) :
    (login bc u p st).1 = Except.ok () ∨ (login bc u p st).2 = st := by
  unfold login
  split
  · exact Or.inr rfl
  · split
    · exact Or.inr rfl
    · exact Or.inl rfl
    · exact Or.inr rfl

/-- Any failing `login` leaves the request state untouched. -/
theorem loginFailEq (bc : String → String → Nat → String) (u p : String)
    (st : ReqState) (e : SFError) (h : (login bc u p st).1 = .error e) :
    (login bc u p st).2 = st := by
  rcases loginCases bc u p st with hok | hst
  · rw [hok] at h
    exact Except.noConfusion h
  · exact hst

/-- `login` for an absent username: the "User does not exist" error, state
untouched. -/
theorem loginNotFoundEq (bc : String → String → Nat → String) (u p : String)
    (st : ReqState) (h : getUserFromUsername u st.db = none) :
    login bc u p st = (.error (.serverError "User does not exist"), st) := by
  unfold login
  split
  · rfl
  · rename_i user2 heq
    rw [heq] at h
    exact Option.noConfusion h

/-- `login` when the bcrypt verification itself errors: the error propagates
wrapped by the server-function conversion, state untouched. -/
theorem loginVerifyErrorEq (bc : String → String → Nat → String)
    (u p : String) (st : ReqState) (user : User) (e : BcryptError)
    (h1 : getUserFromUsername u st.db = some user)
    (h2 : Bcrypt.verify bc p user.password = .error e) :
    login bc u p st = (.error (.fromBcrypt e), st) := by
  unfold login
  split
  · rename_i heq
    rw [heq] at h1
    exact Option.noConfusion h1
  · rename_i user2 heq
    rw [heq] at h1
    injection h1 with h12
    subst h12
    split
    · rename_i e3 hv
      rw [hv] at h2
      injection h2 with h23
      rw [h23]
    · rename_i hv
      rw [hv] at h2
      exact Except.noConfusion h2
    · rename_i hv
      rw [hv] at h2
      simp at h2

/-- `login` when verification returns `false`: the "Password is incorrect"
error, state untouched. -/
theorem loginWrongPasswordEq (bc : String → String → Nat → String)
    (u p : String) (st : ReqState) (user : User)
    (h1 : getUserFromUsername u st.db = some user)
    (h2 : Bcrypt.verify bc p user.password = .ok false) :
    login bc u p st = (.error (.serverError "Password is incorrect"), st) := by
  unfold login
  split
  · rename_i heq
    rw [heq] at h1
    exact Option.noConfusion h1
  · rename_i user2 heq
    rw [heq] at h1
    injection h1 with h12
    subst h12
    split
    · rename_i e3 hv
      rw [hv] at h2
      exact Except.noConfusion h2
    · rename_i hv
      rw [hv] at h2
      simp at h2
    · rfl

/-- Claim C1, counterexample: the server function `register` performs no
length validation, so a 7-byte password (and a 4-byte username) registers
successfully instead of failing with a length policy violation. -/
theorem register_no_server_side_length_check :
    ("1234567" : String).utf8ByteSize = 7 ∧
    (register bcFix "ABCDEFGHIJKLMNOPQRSTUV" "validname" "1234567" "1234567"
      stEmpty).1 = Except.ok () ∧
    ("abcd" : String).utf8ByteSize = 4 ∧
    (register bcFix "ABCDEFGHIJKLMNOPQRSTUV" "abcd" "12345678" "12345678"
      stEmpty).1 = Except.ok () :=
  ⟨by decide, by decide, by decide, by decide⟩

/-- Claim C1 (amended): the minimum-length boundaries (7-byte password fails,
8 passes; 4-byte username fails, 5 passes) are enforced only by the
client-side `RegisterPage` form validation; the server-side `register`
performs no length check and accepts a password of any length whenever the
confirmation matches and the username is fresh. -/
theorem length_validation_client_side_only :
    (∀ p : String, p.utf8ByteSize = 7 → (password_error p).isSome = true) ∧
    (∀ p : String, p.utf8ByteSize = 8 → password_error p = none) ∧
    (∀ u : String, u.utf8ByteSize = 4 → (username_error u).isSome = true) ∧
    (∀ u : String, u.utf8ByteSize = 5 → username_error u = none) ∧
    (∀ (bc : String → String → Nat → String) (salt u p : String)
      (st : ReqState), (∀ x ∈ st.db.users, x.username ≠ u) →
      (register bc salt u p p st).1 = Except.ok ()) := by
  refine ⟨?_, ?_, ?_, ?_, ?_⟩
  · intro p hp
    have hne : p ≠ "" := ne_empty_of_utf8ByteSize (by omega) hp
    simp [password_error, hne, hp, PASSWORD_MIN_LENGTH]
  · intro p hp
    have hne : p ≠ "" := ne_empty_of_utf8ByteSize (by omega) hp
    simp [password_error, hne, hp, PASSWORD_MIN_LENGTH]
  · intro u hu
    have hne : u ≠ "" := ne_empty_of_utf8ByteSize (by omega) hu
    simp [username_error, hne, hu, USERNAME_MIN_LENGTH]
  · intro u hu
    have hne : u ≠ "" := ne_empty_of_utf8ByteSize (by omega) hu
    simp [username_error, hne, hu, USERNAME_MIN_LENGTH]
  · intro bc salt u p st hfresh
    rw [registerFreshEq bc salt u p st hfresh]

/-- Witness for C1 (amended) at concrete inputs. -/
theorem length_validation_client_side_only_witness :
    (password_error "1234567").isSome = true ∧
    password_error "12345678" = none ∧
    (username_error "abcd").isSome = true ∧
    username_error "abcde" = none ∧
    (register bcFix "SALTSALTSALTSALTSALTSA" "frank" "1234567" "1234567"
      stEmpty).1 = Except.ok () :=
  ⟨length_validation_client_side_only.1 "1234567" (by decide),
    length_validation_client_side_only.2.1 "12345678" (by decide),
    length_validation_client_side_only.2.2.1 "abcd" (by decide),
    length_validation_client_side_only.2.2.2.1 "abcde" (by decide),
    length_validation_client_side_only.2.2.2.2 bcFix "SALTSALTSALTSALTSALTSA"
      "frank" "1234567" stEmpty (by decide)⟩

/-- Claim C2, counterexample: with a malformed stored hash, `login` returns
the propagated bcrypt error, which differs from the wrong-credentials
outcome. -/
theorem login_malformed_hash_distinct_error :
    (login bcFix "bob" "pw" stBob).1 =
      .error (.fromBcrypt (.invalidHash "notahash")) ∧
    (login bcFix "bob" "pw" stBob).1 ≠
      .error (.serverError "Password is incorrect") :=
  ⟨by decide, by decide⟩

/-- Claim C2 (amended): password verification raises on a malformed stored
hash: `login` propagates the bcrypt parse error through the `?` operator as
an error distinct from the wrong-credentials outcome, leaving the session
state unchanged. -/
theorem login_propagates_malformed_hash_error
    (bc : String → String → Nat → String) (u p : String) (st : ReqState)
    (user : User) (e : BcryptError)
    (h1 : getUserFromUsername u st.db = some user)
    (h2 : Bcrypt.splitHash user.password = .error e) :
    (login bc u p st).1 = .error (.fromBcrypt e) ∧
    (login bc u p st).2 = st := by
  have hv : Bcrypt.verify bc p user.password = .error e := by
    unfold Bcrypt.verify
    rw [h2]
  rw [loginVerifyErrorEq bc u p st user e h1 hv]
  exact ⟨rfl, rfl⟩

/-- Witness for C2 (amended) at concrete inputs. -/
theorem login_propagates_malformed_hash_error_witness :
    (login bcFix "bob" "secret" stBob).1 =
      .error (.fromBcrypt (.invalidHash "notahash")) ∧
    (login bcFix "bob" "secret" stBob).2 = stBob :=
  login_propagates_malformed_hash_error bcFix "bob" "secret" stBob
    ⟨1, "bob", "notahash"⟩ (.invalidHash "notahash") (by decide) (by decide)

/-- Claim C3: every failing `login` — unknown username or failed
verification — leaves the request state (in particular the session identity)
unchanged, so an anonymous session stays anonymous and `get_user` still
returns `none`. -/
theorem login_failure_leaves_session_anonymous
    (bc : String → String → Nat → String) (u p : String) (st : ReqState)
    (e : SFError) (h : (login bc u p st).1 = .error e) :
    (login bc u p st).2 = st ∧
    (st.session.userId = none →
      (get_user (login bc u p st).2).1 = .ok none) := by
  have hst := loginFailEq bc u p st e h
  refine ⟨hst, fun hanon => ?_⟩
  rw [hst]
  unfold get_user currentUser
  rw [hanon]

/-- Witness for C3 at concrete inputs. -/
theorem login_failure_leaves_session_anonymous_witness :
    (login bcFix "nouser" "x" stEmpty).2 = stEmpty ∧
    (get_user (login bcFix "nouser" "x" stEmpty).2).1 = .ok none := by
  have h := login_failure_leaves_session_anonymous bcFix "nouser" "x" stEmpty
    (.serverError "User does not exist") (by decide)
  exact ⟨h.1, h.2 rfl⟩

/-- Claim C4: every successful `register` behaves as `login` for the newly
created user: the session holds the new user's id, the caller is redirected
to "/", and `get_user` on the resulting state returns a user with the
registered username. -/
theorem register_success_behaves_as_login
    (bc : String → String → Nat → String) (salt u p c : String)
    (st : ReqState) (hwf : st.db.wf)
    (h : (register bc salt u p c st).1 = Except.ok ()) :
    ∃ user : User, user.username = u ∧
      (register bc salt u p c st).2.session.userId = some user.id ∧
      (register bc salt u p c st).2.redirect = some "/" ∧
      (get_user (register bc salt u p c st).2).1 = .ok (some user) := by
  by_cases hpc : p = c
  · subst hpc
    by_cases hfresh : ∀ x ∈ st.db.users, x.username ≠ u
    · have heq := registerFreshEq bc salt u p st hfresh
      have hnone : st.db.users.find? (fun x => x.id == st.db.nextId) = none := by
        rw [List.find?_eq_none]
        intro x hx
        have hlt := hwf x hx
        simp only [beq_iff_eq]
        omega
      refine ⟨⟨st.db.nextId, u, Bcrypt.hash bc salt p Bcrypt.DEFAULT_COST⟩,
        rfl, ?_, ?_, ?_⟩
      · rw [heq]
      · rw [heq]
      · rw [heq]
        unfold get_user currentUser
        simp [List.find?_append, hnone, List.find?]
    · push_neg at hfresh
      obtain ⟨x, hx, hxu⟩ := hfresh
      have hany : st.db.users.any (fun y => y.username == u) = true :=
        List.any_eq_true.mpr ⟨x, hx, by simpa using hxu⟩
      rw [registerDupEq bc salt u p st hany] at h
      exact Except.noConfusion h
  · rw [registerMismatchEq bc salt u p c st hpc] at h
    exact Except.noConfusion h

/-- Witness for C4 at concrete inputs. -/
theorem register_success_behaves_as_login_witness :
    ∃ user : User, user.username = "bob" ∧
      (register bcFix "ABCDEFGHIJKLMNOPQRSTUV" "bob" "pw123456" "pw123456"
        stEmpty).2.session.userId = some user.id ∧
      (register bcFix "ABCDEFGHIJKLMNOPQRSTUV" "bob" "pw123456" "pw123456"
        stEmpty).2.redirect = some "/" ∧
      (get_user (register bcFix "ABCDEFGHIJKLMNOPQRSTUV" "bob" "pw123456"
        "pw123456" stEmpty).2).1 = .ok (some user) :=
  register_success_behaves_as_login bcFix "ABCDEFGHIJKLMNOPQRSTUV" "bob"
    "pw123456" "pw123456" stEmpty (by decide) (by decide)

/-- Claim C5: `logout` succeeds on every session state, clears the identity
(and is idempotent), and after any successful `login`, a `logout` followed by
`get_user` yields `none`. -/
theorem logout_idempotent_clears_identity :
    (∀ st : ReqState,
      logout st = (.ok (), ⟨st.db, ⟨none⟩, some "/"⟩) ∧
      (get_user (logout st).2).1 = .ok none ∧
      (logout (logout st).2).2 = (logout st).2) ∧
    (∀ (bc : String → String → Nat → String) (u p : String) (st : ReqState),
      (login bc u p st).1 = Except.ok () →
      (get_user (logout (login bc u p st).2).2).1 = .ok none) := by
  constructor
  · intro st
    exact ⟨rfl, rfl, rfl⟩
  · intro bc u p st _
    rfl

/-- Witness for C5 at concrete inputs. -/
theorem logout_idempotent_clears_identity_witness :
    (login bcFix "alice" "pw" stAlice).1 = Except.ok () ∧
    logout stAlice = (.ok (), ⟨stAlice.db, ⟨none⟩, some "/"⟩) ∧
    (get_user (logout (login bcFix "alice" "pw" stAlice).2).2).1 = .ok none := by
  have h1 : (login bcFix "alice" "pw" stAlice).1 = Except.ok () := by decide
  exact ⟨h1, (logout_idempotent_clears_identity.1 stAlice).1,
    logout_idempotent_clears_identity.2 bcFix "alice" "pw" stAlice h1⟩

/-- Claim C6: every `register` call with mismatching password and
confirmation fails with the "Passwords do not match" error. -/
theorem register_password_mismatch_error
    (bc : String → String → Nat → String) (salt u p c : String)
    (st : ReqState) (h : p ≠ c) :
    (register bc salt u p c st).1 =
      .error (.serverError "Passwords do not match") := by
  rw [registerMismatchEq bc salt u p c st h]

/-- Witness for C6 at concrete inputs. -/
theorem register_password_mismatch_error_witness :
    (register bcFix "SALT" "dave1" "pw111111" "pw222222" stEmpty).1 =
      .error (.serverError "Passwords do not match") :=
  register_password_mismatch_error bcFix "SALT" "dave1" "pw111111" "pw222222"
    stEmpty (by decide)

/-- Claim C7: registering a username that already exists (exactly one stored
row carries it) fails with the uniqueness-violation error, the state is
entirely unchanged (no partial record), and exactly one row with that
username exists afterwards. -/
theorem register_duplicate_username_atomic
    (bc : String → String → Nat → String) (salt u p : String) (st : ReqState)
    (h : (st.db.users.filter (fun x => x.username == u)).length = 1) :
    register bc salt u p p st = (.error (.fromDb .uniqueViolation), st) ∧
    ((register bc salt u p p st).2.db.users.filter
      (fun x => x.username == u)).length = 1 := by
  have hpos : 0 < (st.db.users.filter (fun x => x.username == u)).length := by
    omega
  obtain ⟨x, hx⟩ := List.exists_mem_of_length_pos hpos
  have hmem := List.mem_filter.mp hx
  have hany : st.db.users.any (fun y => y.username == u) = true :=
    List.any_eq_true.mpr ⟨x, hmem.1, hmem.2⟩
  have heq := registerDupEq bc salt u p st hany
  exact ⟨heq, by rw [heq]; exact h⟩

/-- Witness for C7 at concrete inputs. -/
theorem register_duplicate_username_atomic_witness :
    register bcFix "SALT" "alice" "pw123456" "pw123456" stAlice =
      (.error (.fromDb .uniqueViolation), stAlice) ∧
    ((register bcFix "SALT" "alice" "pw123456" "pw123456"
      stAlice).2.db.users.filter (fun x => x.username == "alice")).length = 1 :=
  register_duplicate_username_atomic bcFix "SALT" "alice" "pw123456" stAlice
    (by decide)

/-- Claim C8: `get_user` is read-only: it returns the resolved current user
and leaves the request state — session and credential store — exactly as it
was. -/
theorem get_user_read_only (st : ReqState) :
    get_user st = (.ok (currentUser st), st) := rfl

/-- Claim C9: the two `login` failure modes are reported distinctly: an
unknown username yields "User does not exist" while a wrong password for an
existing user yields "Password is incorrect", and the two errors differ. -/
theorem login_distinct_failure_errors :
    (∀ (bc : String → String → Nat → String) (u p : String) (st : ReqState),
      getUserFromUsername u st.db = none →
      (login bc u p st).1 = .error (.serverError "User does not exist")) ∧
    (∀ (bc : String → String → Nat → String) (u p : String) (st : ReqState)
      (user : User), getUserFromUsername u st.db = some user →
      Bcrypt.verify bc p user.password = .ok false →
      (login bc u p st).1 =
        .error (.serverError "Password is incorrect")) ∧
    SFError.serverError "User does not exist" ≠
      SFError.serverError "Password is incorrect" := by
  refine ⟨?_, ?_, by decide⟩
  · intro bc u p st h
    rw [loginNotFoundEq bc u p st h]
  · intro bc u p st user h1 h2
    rw [loginWrongPasswordEq bc u p st user h1 h2]

/-- Witness for C9 at concrete inputs. -/
theorem login_distinct_failure_errors_witness :
    (login bcFix "nobody" "x" stEmpty).1 =
      .error (.serverError "User does not exist") ∧
    (login bcFix "carol" "badpw" stCarol).1 =
      .error (.serverError "Password is incorrect") ∧
    SFError.serverError "User does not exist" ≠
      SFError.serverError "Password is incorrect" :=
  ⟨login_distinct_failure_errors.1 bcFix "nobody" "x" stEmpty (by decide),
    login_distinct_failure_errors.2.1 bcFix "carol" "badpw" stCarol
      ⟨1, "carol", hashWrong⟩ (by decide) (by decide),
    login_distinct_failure_errors.2.2⟩

/-- Claim C10: when `register` fails on mismatching passwords it returns
before the password hash and before any database write: the request state —
credential store and session alike — is exactly the input state. -/
theorem register_mismatch_no_side_effects
    (bc : String → String → Nat → String) (salt u p c : String)
    (st : ReqState) (h : p ≠ c) :
    (register bc salt u p c st).2 = st := by
  rw [registerMismatchEq bc salt u p c st h]

/-- Witness for C10 at concrete inputs. -/
theorem register_mismatch_no_side_effects_witness :
    (register bcFix "SALT" "erin1" "pw111111" "pw222222" stEmpty).2 =
      stEmpty :=
  register_mismatch_no_side_effects bcFix "SALT" "erin1" "pw111111"
    "pw222222" stEmpty (by decide)

end ExpensesSplitter
